import Mathlib

/-!
# Verification of the ms2query candidate preselection and rescoring pipeline

Shallow embedding of `ms2query/ms2library.py` (plus the mass-similarity
helper of `ms2query/ml_functions.py`).  Python dictionaries are embedded as
association lists with first-match lookup and in-place update; pandas
`Series.nlargest` (keep = first) is embedded as a stable descending sort
followed by `take`; every Python statement that can raise (`dict[...]`
lookup, division by zero, `assert`, duplicate-label column selection) is
embedded in `Except PyError`.  Floating point numbers are embedded as
rationals, except for the exponential mass similarity `base ** |dm|`,
which is embedded as a real-number power.
-/

namespace MS2Query

/-- A library or query spectrum identifier (a metadata string). -/
abbrev SpectrumId := String

/-- The first 14 characters of an InChIKey, the structural identifier. -/
abbrev Inchikey := String

/-- Python exceptions that the embedded code can raise.

`keyError` embeds a failing `dict[...]` / `Series.loc[...]` lookup,
`zeroDivisionError` a division by zero, `assertionError` a failing
`assert` statement, `typeError` a call with a wrong argument shape, and
`valueError` a pandas constructor failure.  `configurationError` does not
correspond to anything in the source; it is modelled from the spec, whose
§7 requires a dedicated `ConfigurationError`, so that the spec's claim
about it can be stated and compared with what the source raises. -/
inductive PyError where
  | keyError (key : String)
  | zeroDivisionError
  | assertionError (msg : String)
  | typeError (msg : String)
  | valueError (msg : String)
  | configurationError (msg : String)
  deriving DecidableEq, Repr

/-- Python `dict[key]` lookup: the value at the first matching key, or a
`KeyError`.  (Python dictionaries have unique keys, so first-match agrees
with the dictionary semantics.) -/
def dictGet {β : Type} : List (String × β) → String → Except PyError β
  | [], k => .error (.keyError k)
  | p :: rest, k => if p.1 = k then .ok p.2 else dictGet rest k

/-- Python `dict[key] = value`: replace the value at an existing key in
place, otherwise append the new binding at the end (insertion order). -/
def dictUpsert {β : Type} : List (String × β) → String → β → List (String × β)
  | [], k, v => [(k, v)]
  | p :: rest, k, v => if p.1 = k then (k, v) :: rest else p :: dictUpsert rest k v

@[simp]
theorem dictGet_nil {β : Type} (k : String) :
    dictGet ([] : List (String × β)) k = .error (.keyError k) := rfl

@[simp]
theorem dictGet_cons {β : Type} (p : String × β) (rest : List (String × β)) (k : String) :
    dictGet (p :: rest) k = if p.1 = k then .ok p.2 else dictGet rest k := rfl

theorem dictGet_upsert_self {β : Type} (d : List (String × β)) (k : String) (v : β) :
    dictGet (dictUpsert d k v) k = .ok v := by
  induction d with
  | nil => simp [dictUpsert, dictGet]
  | cons p rest ih =>
      by_cases h : p.1 = k
      · simp [dictUpsert, h, dictGet]
      · simp [dictUpsert, h, dictGet, ih]

theorem dictGet_upsert_ne {β : Type} (d : List (String × β)) (k k' : String) (v : β)
    (h : k' ≠ k) : dictGet (dictUpsert d k v) k' = dictGet d k' := by
  have hks : ¬(k = k') := fun hk => h hk.symm
  induction d with
  | nil => simp [dictUpsert, dictGet, hks]
  | cons p rest ih =>
      by_cases hp : p.1 = k
      · subst hp
        simp [dictUpsert, dictGet, hks]
      · simp [dictUpsert, hp, dictGet, ih]

theorem dictUpsert_keys_of_not_mem {β : Type} (d : List (String × β)) (k : String) (v : β)
    (h : k ∉ d.map Prod.fst) :
    (dictUpsert d k v).map Prod.fst = d.map Prod.fst ++ [k] := by
  induction d with
  | nil => simp [dictUpsert]
  | cons p rest ih =>
      simp only [List.map_cons, List.mem_cons] at h
      push_neg at h
      have hp : ¬(p.1 = k) := fun hk => h.1 hk.symm
      simp [dictUpsert, hp, ih h.2]

theorem dictUpsert_length_of_not_mem {β : Type} (d : List (String × β)) (k : String) (v : β)
    (h : k ∉ d.map Prod.fst) :
    (dictUpsert d k v).length = d.length + 1 := by
  have := dictUpsert_keys_of_not_mem d k v h
  have hlen := congrArg List.length this
  simpa using hlen

/-!
## Sorting

`pandas.Series.nlargest(n)` (default `keep='first'`) sorts the entries by
value descending with a stable sort (its implementation argsorts the
negated values with `kind='mergesort'`) and keeps the first `n`.  A stable
sort's output is uniquely determined, so we embed it with Mathlib's
(stable) insertion sort. -/

/-- "Greater or equal on the key `f`": the descending sort order. -/
def byDescKey {α : Type} (f : α → ℚ) : α → α → Prop := fun a b => f b ≤ f a

instance {α : Type} (f : α → ℚ) : DecidableRel (byDescKey f) :=
  fun a b => inferInstanceAs (Decidable (f b ≤ f a))

instance {α : Type} (f : α → ℚ) : IsTotal α (byDescKey f) :=
  ⟨fun a b => le_total (f b) (f a)⟩

instance {α : Type} (f : α → ℚ) : IsTrans α (byDescKey f) :=
  ⟨fun _ _ _ h1 h2 => le_trans h2 h1⟩

/-- `series.nlargest(n)` with `keep='first'`: stable descending sort by
score, then keep the first `n` entries (so ties are broken by position in
the series, earlier entries first). -/
def nlargest (n : ℕ) (s : List (SpectrumId × ℚ)) : List (SpectrumId × ℚ) :=
  (List.insertionSort (byDescKey Prod.snd) s).take n

theorem length_nlargest (n : ℕ) (s : List (SpectrumId × ℚ)) :
    (nlargest n s).length = min n s.length := by
  simp [nlargest, List.length_insertionSort]

/-!
## Settings (`MS2Library._set_settings`, ms2library.py lines 83-108)

Python values that can appear in the `**settings` keyword arguments, with
their runtime type tags; `isinstance(v, type(default))` for the default
types occurring here (`str`, `float`, `bool`) is exactly type-tag
equality (in Python, `bool` is not a subclass of `float`, and `int` is
not an instance of `float`). -/
inductive PyVal where
  | vStr (s : String)
  | vFloat (q : ℚ)
  | vBool (b : Bool)
  | vInt (n : ℤ)
  deriving DecidableEq, Repr

/-- Runtime type tags for `PyVal`. -/
inductive PyType where
  | str
  | float
  | bool
  | int
  deriving DecidableEq, Repr

/-- `type(v)` for a `PyVal`. -/
def PyVal.typeTag : PyVal → PyType
  | .vStr _ => .str
  | .vFloat _ => .float
  | .vBool _ => .bool
  | .vInt _ => .int

/-- The validated settings dictionary of `MS2Library`. -/
structure Settings where
  spectrum_id_column_name : String
  cosine_score_tolerance : ℚ
  base_nr_mass_similarity : ℚ
  progress_bars : Bool
  deriving DecidableEq, Repr

/-- The `default_settings` dictionary of `_set_settings`. -/
def defaultSettings : Settings :=
  { spectrum_id_column_name := "spectrumid"
    cosine_score_tolerance := 1 / 10
    base_nr_mass_similarity := 4 / 5
    progress_bars := true }

/-- The type tag of the default value stored under a settings key,
`none` for a key that is not in `default_settings`. -/
def settingType : String → Option PyType
  | "spectrum_id_column_name" => some .str
  | "cosine_score_tolerance" => some .float
  | "base_nr_mass_similarity" => some .float
  | "progress_bars" => some .bool
  | _ => none

/-- `default_settings[attribute] = new_settings[attribute]` once both
asserts have passed (so key and type are known to match). -/
def applySetting (s : Settings) (k : String) (v : PyVal) : Settings :=
  match k, v with
  | "spectrum_id_column_name", .vStr x => { s with spectrum_id_column_name := x }
  | "cosine_score_tolerance", .vFloat x => { s with cosine_score_tolerance := x }
  | "base_nr_mass_similarity", .vFloat x => { s with base_nr_mass_similarity := x }
  | "progress_bars", .vBool x => { s with progress_bars := x }
  | _, _ => s

/-- The `for attribute in new_settings` loop of `_set_settings`: `assert`
that the key is known and that the value has the default's type, then
overwrite.  A failing Python `assert` raises `AssertionError`. -/
def setSettingsLoop (s : Settings) : List (String × PyVal) → Except PyError Settings
  | [] => .ok s
  | (k, v) :: rest =>
      match settingType k with
      | none => .error (.assertionError ("Invalid argument in constructor:" ++ k))
      | some t =>
          if v.typeTag = t then setSettingsLoop (applySetting s k v) rest
          else .error (.assertionError ("Different type is expected for argument: " ++ k))

/-- `MS2Library._set_settings` (ms2library.py lines 83-108): starting from
the defaults, validate and apply each supplied option in order. -/
def set_settings (new_settings : List (String × PyVal)) : Except PyError Settings :=
  setSettingsLoop defaultSettings new_settings

/-!
## Per-structure averages (`get_average_ms2ds_for_inchikey14`, lines 389-401)
-/

/-- The inner loop `sum_of_ms2ds_scores += ms2ds_scores.loc[spectrum_id]`:
sum of the ms2ds scores of the member spectra of one inchikey, a
`KeyError` if a member spectrum id is missing from the score series. -/
def sumMemberScores (scores : List (SpectrumId × ℚ)) : List SpectrumId → Except PyError ℚ
  | [] => .ok 0
  | sid :: rest => do
      let v ← dictGet scores sid
      let acc ← sumMemberScores scores rest
      .ok (v + acc)

/-- `get_average_ms2ds_for_inchikey14` (ms2library.py lines 389-401): for
each inchikey of `spectra_belonging_to_inchikey14s`, in order, compute the
sum of its member spectra's ms2ds scores; when the member count is
positive store `(sum / count, count)`, otherwise store nothing for that
inchikey. -/
def get_average_ms2ds_for_inchikey14 (scores : List (SpectrumId × ℚ)) :
    List (Inchikey × List SpectrumId) → Except PyError (List (Inchikey × (ℚ × ℕ)))
  | [] => .ok []
  | (ik, members) :: rest => do
      let total ← sumMemberScores scores members
      let restScores ← get_average_ms2ds_for_inchikey14 scores rest
      if 0 < members.length then
        .ok ((ik, (total / members.length, members.length)) :: restScores)
      else
        .ok restScores

/-!
## Chemical neighbourhood scores (`get_closely_related_scores`, lines 418-477)
-/

/-- The `for closely_related_inchikey14, tanimoto_score in ...` loop of
`get_closely_related_scores`: accumulates, over the neighbour list of one
inchikey, the triple
(`sum_related_inchikey_tanimoto_scores`, `total_weight_of_spectra_used`,
`total_nr_of_spectra_used`) where each neighbour contributes weight
`member_count * tanimoto` (a `KeyError` if the neighbour has no entry in
the average-score dictionary). -/
def neighborTotals (avg : List (Inchikey × (ℚ × ℕ))) :
    List (Inchikey × ℚ) → Except PyError (ℚ × ℚ × ℕ)
  | [] => .ok (0, 0, 0)
  | (nik, tanimoto) :: rest => do
      let p ← dictGet avg nik
      let acc ← neighborTotals avg rest
      .ok (acc.1 + p.1 * ((p.2 : ℚ) * tanimoto), acc.2.1 + (p.2 : ℚ) * tanimoto,
           acc.2.2 + p.2)

/-- The `for inchikey in selected_inchikey14s` loop of
`get_closely_related_scores`, carrying the dictionary built so far.  After
the neighbour loop the source first computes
`average_tanimoto_score_used = total_weight / total_nr` (Python raises
`ZeroDivisionError` when `total_nr` is zero) and then stores
`(sum / total_weight, total_nr, average_tanimoto_score_used)` (raising
when `total_weight` is zero). -/
def closelyRelatedLoop (closest : List (Inchikey × List (Inchikey × ℚ)))
    (avg : List (Inchikey × (ℚ × ℕ))) (acc : List (Inchikey × (ℚ × ℕ × ℚ))) :
    List Inchikey → Except PyError (List (Inchikey × (ℚ × ℕ × ℚ)))
  | [] => .ok acc
  | ik :: rest => do
      let nbrs ← dictGet closest ik
      let t ← neighborTotals avg nbrs
      if t.2.2 = 0 then .error .zeroDivisionError
      else if t.2.1 = 0 then .error .zeroDivisionError
      else
        closelyRelatedLoop closest avg
          (dictUpsert acc ik (t.1 / t.2.1, t.2.2, t.2.1 / (t.2.2 : ℚ))) rest

/-- `get_closely_related_scores` (ms2library.py lines 418-477): for every
selected inchikey, the weighted average ms2ds score over its closely
related inchikeys, the total number of spectra used, and the realized
average tanimoto score. -/
def get_closely_related_scores (selected : List Inchikey)
    (closest : List (Inchikey × List (Inchikey × ℚ)))
    (avg : List (Inchikey × (ℚ × ℕ))) : Except PyError (List (Inchikey × (ℚ × ℕ × ℚ))) :=
  closelyRelatedLoop closest avg [] selected

/-!
## Preselection (`calculate_averages_and_preselection`, lines 258-299)

The embedding covers the default `sort_on_average_ms2ds = False` branch
(lines 286-292): direct top-N selection on the raw ms2ds score series.
-/

/-- `calculate_averages_and_preselection` (default branch): the average
score per inchikey, the spectrum ids of the `preselection_cut_off`
highest raw ms2ds scores (`list(ms2ds_scores.nlargest(cut_off).index)`),
and the closely related scores for all inchikeys of the average-score
dictionary (`selected_inchikeys = average_ms2ds_scores`). -/
def calculate_averages_and_preselection (ms2ds_scores : List (SpectrumId × ℚ))
    (preselection_cut_off : ℕ)
    (spectra_belonging_to_inchikey14s : List (Inchikey × List SpectrumId))
    (closely_related_inchikey14s : List (Inchikey × List (Inchikey × ℚ))) :
    Except PyError
      (List SpectrumId × List (Inchikey × (ℚ × ℕ)) × List (Inchikey × (ℚ × ℕ × ℚ))) := do
  let average_ms2ds_scores ←
    get_average_ms2ds_for_inchikey14 ms2ds_scores spectra_belonging_to_inchikey14s
  let selected_spectrum_ids := (nlargest preselection_cut_off ms2ds_scores).map Prod.fst
  let related_inchikey_scores ←
    get_closely_related_scores (average_ms2ds_scores.map Prod.fst)
      closely_related_inchikey14s average_ms2ds_scores
  .ok (selected_spectrum_ids, average_ms2ds_scores, related_inchikey_scores)

/-!
## Feature table (`select_and_normalize_scores_for_selected_spectra`,
lines 301-364, and `find_mass_similarity`, ml_functions.py lines 208-232)
-/

/-- The mass similarity feature,
`base_nr_mass_similarity ** abs(parent_mass - query_parent_mass)`
(ms2library.py lines 359-362; the same formula as
`find_mass_similarity` in ml_functions.py). -/
noncomputable def mass_similarity (base parent_mass query_parent_mass : ℚ) : ℝ :=
  (base : ℝ) ^ |(parent_mass : ℝ) - (query_parent_mass : ℝ)|

/-- One row of the feature table built by
`select_and_normalize_scores_for_selected_spectra`; field order is the
key order of the `selected_and_normalized_scores` dictionary literal
(ms2library.py lines 320-329). -/
structure FeatureRow where
  parent_mass_divided_by_1000 : ℚ
  mass_similarity : ℝ
  s2v_score : ℚ
  ms2ds_score : ℚ
  average_ms2ds_score_for_inchikey14 : ℚ
  nr_of_spectra_with_same_inchikey14_divided_by_100 : ℚ
  average_ms2ds_score_for_closely_related_inchikey14s : ℚ
  average_tanimoto_score_used_for_closely_related_score : ℚ
  nr_of_spectra_for_closely_related_score_divided_by_100 : ℚ

/-- The column labels of a feature row, in the order of the
`selected_and_normalized_scores` dictionary literal, paired with the
row's values (pandas builds the DataFrame columns from this dictionary,
preserving its insertion order). -/
noncomputable def featureRowFields (row : FeatureRow) : List (String × ℝ) :=
  [("parent_mass_divided_by_1000", (row.parent_mass_divided_by_1000 : ℝ)),
   ("mass_similarity", row.mass_similarity),
   ("s2v_score", (row.s2v_score : ℝ)),
   ("ms2ds_score", (row.ms2ds_score : ℝ)),
   ("average_ms2ds_score_for_inchikey14", (row.average_ms2ds_score_for_inchikey14 : ℝ)),
   ("nr_of_spectra_with_same_inchikey14_divided_by_100",
    (row.nr_of_spectra_with_same_inchikey14_divided_by_100 : ℝ)),
   ("average_ms2ds_score_for_closely_related_inchikey14s",
    (row.average_ms2ds_score_for_closely_related_inchikey14s : ℝ)),
   ("average_tanimoto_score_used_for_closely_related_score",
    (row.average_tanimoto_score_used_for_closely_related_score : ℝ)),
   ("nr_of_spectra_for_closely_related_score_divided_by_100",
    (row.nr_of_spectra_for_closely_related_score_divided_by_100 : ℝ))]

/-- `select_and_normalize_scores_for_selected_spectra` (ms2library.py
lines 301-364): one feature row per selected spectrum id, in the order of
the selected list; the Spec2Vec scores are passed positionally aligned
with the selected list (the source stores the whole `s2v_scores` array as
one column of the same dictionary, and `pd.DataFrame` raises
`ValueError` when the lengths disagree).  Every feature is fetched with a
plain dictionary lookup, so a missing entry raises `KeyError`. -/
noncomputable def select_and_normalize_scores_for_selected_spectra
    (base_nr_mass_similarity : ℚ) (ms2ds_scores : List (SpectrumId × ℚ))
    (inchikey14s_corresponding_to_spectrum_ids : List (SpectrumId × Inchikey))
    (related_inchikey_score_dict : List (Inchikey × (ℚ × ℕ × ℚ)))
    (average_ms2ds_scores : List (Inchikey × (ℚ × ℕ)))
    (all_parent_masses : List (SpectrumId × ℚ)) (query_spectrum_parent_mass : ℚ) :
    List SpectrumId → List ℚ → Except PyError (List (SpectrumId × FeatureRow))
  | [], [] => .ok []
  | [], _ :: _ => .error (.valueError "arrays must all be same length")
  | _ :: _, [] => .error (.valueError "arrays must all be same length")
  | spectrum_id :: restIds, s2v :: restS2v => do
      let ms2ds ← dictGet ms2ds_scores spectrum_id
      let matching_inchikey14 ← dictGet inchikey14s_corresponding_to_spectrum_ids spectrum_id
      let related ← dictGet related_inchikey_score_dict matching_inchikey14
      let average ← dictGet average_ms2ds_scores matching_inchikey14
      let parent_mass ← dictGet all_parent_masses spectrum_id
      let rest ← select_and_normalize_scores_for_selected_spectra
        base_nr_mass_similarity ms2ds_scores inchikey14s_corresponding_to_spectrum_ids
        related_inchikey_score_dict average_ms2ds_scores all_parent_masses
        query_spectrum_parent_mass restIds restS2v
      .ok ((spectrum_id,
            { parent_mass_divided_by_1000 := parent_mass / 1000
              mass_similarity :=
                mass_similarity base_nr_mass_similarity parent_mass
                  query_spectrum_parent_mass
              s2v_score := s2v
              ms2ds_score := ms2ds
              average_ms2ds_score_for_inchikey14 := average.1
              nr_of_spectra_with_same_inchikey14_divided_by_100 := (average.2 : ℚ) / 100
              average_ms2ds_score_for_closely_related_inchikey14s := related.1
              average_tanimoto_score_used_for_closely_related_score := related.2.2
              nr_of_spectra_for_closely_related_score_divided_by_100 :=
                (related.2.1 : ℚ) / 100 }) :: rest)

/-!
## The library facade (`MS2Library`, `collect_matches_data_multiple_spectra`,
`get_ms2query_model_prediction`, `select_best_matches`)
-/

/-- A query spectrum, reduced to the metadata the pipeline reads: the
value stored under the configured spectrum-id key
(`query_spectrum.get(settings["spectrum_id_column_name"])`) and the
parent mass (`query_spectrum.get("parent_mass")`). -/
structure Spectrum where
  spectrum_id : SpectrumId
  parent_mass : ℚ
  deriving DecidableEq, Repr

/-- The loaded `MS2Library` state.  `belonging` and `closest` are the two
dictionaries returned by `get_inchikey_information` and `parentMasses`
the dictionary returned by `get_parent_mass`; both functions live in
`ms2query/query_from_sqlite_database.py`, which is not part of the source
tree, so these inputs are modelled from the spec (§4.1, §6: a pure lookup
index from structure-id to member spectrum ids and to the top-k
structurally closest structure-ids, and an exact-match metadata lookup by
spectrum id).  `ms2dsColumn` models the per-query column of the
`_get_all_ms2ds_scores` cosine-similarity matrix (the MS2DeepScore
embedding model is an external black box, §6), indexed by the library
embedding index; `s2vScore` models `get_s2v_scores` (the Spec2Vec model,
also external). -/
structure MS2Library where
  settings : Settings
  belonging : List (Inchikey × List SpectrumId)
  closest : List (Inchikey × List (Inchikey × ℚ))
  parentMasses : List (SpectrumId × ℚ)
  ms2dsColumn : Spectrum → List (SpectrumId × ℚ)
  s2vScore : Spectrum → SpectrumId → ℚ

/-- Construction of an `MS2Library` (`__init__`, ms2library.py lines
20-81): the settings are validated by `_set_settings` first (line 70),
before any model or embedding is loaded and before any query is
processed. -/
def ms2library_init (new_settings : List (String × PyVal))
    (belonging : List (Inchikey × List SpectrumId))
    (closest : List (Inchikey × List (Inchikey × ℚ)))
    (parentMasses : List (SpectrumId × ℚ))
    (ms2dsColumn : Spectrum → List (SpectrumId × ℚ))
    (s2vScore : Spectrum → SpectrumId → ℚ) : Except PyError MS2Library := do
  let settings ← set_settings new_settings
  .ok { settings, belonging, closest, parentMasses, ms2dsColumn, s2vScore }

/-- The inversion loop of `collect_matches_data_multiple_spectra`
(ms2library.py lines 163-166): `inchikeys_belonging_to_spectra[spectrum_id]
= inchikey` for every member spectrum of every inchikey. -/
def invert_belonging (belonging : List (Inchikey × List SpectrumId)) :
    List (SpectrumId × Inchikey) :=
  belonging.foldl (fun d p => p.2.foldl (fun d' sid => dictUpsert d' sid p.1) d) []

/-- `ms2ds_scores[spectrum_id]` on the score DataFrame whose columns are
labelled with the query spectrum ids: pandas returns the single matching
column as a Series; with a duplicated column label it returns a
two-column DataFrame instead, and the immediately following
`Series.nlargest(preselection_cut_off)` call (line 289) then fails with
`TypeError` because `DataFrame.nlargest` requires a `columns` argument;
the embedding surfaces that failure at the selection. -/
def df_select_column (matrix : List (SpectrumId × List (SpectrumId × ℚ)))
    (spectrum_id : SpectrumId) : Except PyError (List (SpectrumId × ℚ)) :=
  match matrix.filter (fun p => p.1 == spectrum_id) with
  | [] => .error (.keyError spectrum_id)
  | [c] => .ok c.2
  | _ :: _ :: _ =>
      .error (.typeError "nlargest() missing 1 required positional argument: columns")

/-- The body of the `for query_spectrum in query_spectra` loop of
`collect_matches_data_multiple_spectra` (ms2library.py lines 175-202):
select the query's ms2ds score column, preselect and aggregate, compute
the Spec2Vec scores of the selected ids, and build the feature table. -/
noncomputable def processQuerySpectrum (lib : MS2Library)
    (matrix : List (SpectrumId × List (SpectrumId × ℚ)))
    (inchikeyOf : List (SpectrumId × Inchikey)) (preselection_cut_off : ℕ)
    (q : Spectrum) : Except PyError (List (SpectrumId × FeatureRow)) := do
  let col ← df_select_column matrix q.spectrum_id
  let r ← calculate_averages_and_preselection col preselection_cut_off
    lib.belonging lib.closest
  let s2v_scores := r.1.map (lib.s2vScore q)
  select_and_normalize_scores_for_selected_spectra
    lib.settings.base_nr_mass_similarity col inchikeyOf r.2.2 r.2.1
    lib.parentMasses q.parent_mass r.1 s2v_scores

/-- The `for query_spectrum in query_spectra` loop itself, writing each
query's table into `dict_with_preselected_spectra_info[spectrum_id]`. -/
noncomputable def collectLoop (lib : MS2Library)
    (matrix : List (SpectrumId × List (SpectrumId × ℚ)))
    (inchikeyOf : List (SpectrumId × Inchikey)) (preselection_cut_off : ℕ)
    (acc : List (SpectrumId × List (SpectrumId × FeatureRow))) :
    List Spectrum → Except PyError (List (SpectrumId × List (SpectrumId × FeatureRow)))
  | [] => .ok acc
  | q :: rest => do
      let table ← processQuerySpectrum lib matrix inchikeyOf preselection_cut_off q
      collectLoop lib matrix inchikeyOf preselection_cut_off
        (dictUpsert acc q.spectrum_id table) rest

/-- `collect_matches_data_multiple_spectra` (ms2library.py lines
138-204): the ms2ds score matrix is computed once for all query spectra
(its columns labelled by the query spectrum ids), the inchikey dictionary
is inverted once, and then each query spectrum is processed in order,
keyed by its spectrum id. -/
noncomputable def collect_matches_data_multiple_spectra (lib : MS2Library)
    (query_spectra : List Spectrum) (preselection_cut_off : ℕ) :
    Except PyError (List (SpectrumId × List (SpectrumId × FeatureRow))) :=
  collectLoop lib (query_spectra.map (fun q => (q.spectrum_id, lib.ms2dsColumn q)))
    (invert_belonging lib.belonging) preselection_cut_off [] query_spectra

/-- `get_ms2query_model_prediction` (ms2library.py lines 480-507): the
pretrained ranking model (external, opaque; modelled as `predict`) is
applied to every row of every table, the prediction is appended, and each
table is re-sorted descending by the prediction
(`sort_values(by=["ms2query_model_prediction"], ascending=False)`).  The
source uses the pandas default `kind='quicksort'`, which carries no
tie-order guarantee; the embedding uses a stable sort as one admissible
refinement of "sorted descending by prediction". -/
noncomputable def get_ms2query_model_prediction (predict : FeatureRow → ℚ)
    (matches_info : List (SpectrumId × List (SpectrumId × FeatureRow))) :
    List (SpectrumId × List ((SpectrumId × FeatureRow) × ℚ)) :=
  matches_info.map (fun t =>
    (t.1, List.insertionSort (byDescKey Prod.snd) (t.2.map (fun r => (r, predict r.2)))))

/-- `select_best_matches` (ms2library.py lines 110-136): collect the
preselected matches for every query spectrum, then add the ms2query model
prediction and re-sort. -/
noncomputable def select_best_matches (lib : MS2Library) (predict : FeatureRow → ℚ)
    (query_spectra : List Spectrum) (preselection_cut_off : ℕ) :
    Except PyError (List (SpectrumId × List ((SpectrumId × FeatureRow) × ℚ))) :=
  (collect_matches_data_multiple_spectra lib query_spectra preselection_cut_off).map
    (get_ms2query_model_prediction predict)

/-!
## Auxiliary definitions used in the statements and witnesses
-/

/-- A keyword argument that `_set_settings` cannot accept: its key is not
a default-settings key, or its value's runtime type differs from the
default value's type. -/
def invalidSetting (p : String × PyVal) : Prop :=
  ∀ t, settingType p.1 = some t → p.2.typeTag ≠ t

/-- A one-spectrum demonstration library: one library spectrum `L1` with
inchikey14 `A` (whose only listed close relative is itself, tanimoto 1),
constant external model scores. -/
def demoLib : MS2Library :=
  { settings := defaultSettings
    belonging := [("A", ["L1"])]
    closest := [("A", [("A", 1)])]
    parentMasses := [("L1", 100)]
    ms2dsColumn := fun _ => [("L1", 9 / 10)]
    s2vScore := fun _ _ => 1 / 2 }

/-- A demonstration query spectrum. -/
def demoQuery : Spectrum := ⟨"Q1", 100⟩

/-- A demonstration ranking model (external, opaque). -/
def demoPredict : FeatureRow → ℚ := fun _ => 3 / 10

/-- The feature row the pipeline computes for library spectrum `L1`
against the demonstration query. -/
noncomputable def demoRow : FeatureRow :=
  { parent_mass_divided_by_1000 := 1 / 10
    mass_similarity := mass_similarity (4 / 5) 100 100
    s2v_score := 1 / 2
    ms2ds_score := 9 / 10
    average_ms2ds_score_for_inchikey14 := 9 / 10
    nr_of_spectra_with_same_inchikey14_divided_by_100 := 1 / 100
    average_ms2ds_score_for_closely_related_inchikey14s := 9 / 10
    average_tanimoto_score_used_for_closely_related_score := 1
    nr_of_spectra_for_closely_related_score_divided_by_100 := 1 / 100 }

/-- The result of running the full pipeline on the demonstration data. -/
noncomputable def demoBestMatches :
    List (SpectrumId × List ((SpectrumId × FeatureRow) × ℚ)) :=
  [("Q1", [(("L1", demoRow), 3 / 10)])]

/-- The result of collecting matches for the demonstration data. -/
noncomputable def demoCollected : List (SpectrumId × List (SpectrumId × FeatureRow)) :=
  [("Q1", [("L1", demoRow)])]

/-- A concrete successful feature table: one selected spectrum `s1` with
inchikey `A` and all lookup dictionaries populated. -/
noncomputable def demoFeatureTable : List (SpectrumId × FeatureRow) :=
  (select_and_normalize_scores_for_selected_spectra (4 / 5) [("s1", 9 / 10)]
    [("s1", "A")] [("A", (1, 1, 1))] [("A", (9 / 10, 1))] [("s1", 100)] 100
    ["s1"] [1 / 2]).toOption.getD []

/-!
## Shared helper lemmas
-/

theorem dictGet_of_not_mem {β : Type} (d : List (String × β)) (k : String)
    (h : k ∉ d.map Prod.fst) : dictGet d k = .error (.keyError k) := by
  induction d with
  | nil => rfl
  | cons p rest ih =>
      simp only [List.map_cons, List.mem_cons] at h
      push_neg at h
      have hp : ¬(p.1 = k) := fun hk => h.1 hk.symm
      simp [dictGet, hp, ih h.2]

theorem mem_dictUpsert {β : Type} (d : List (String × β)) (k : String) (v : β)
    (p : String × β) (h : p ∈ dictUpsert d k v) : p ∈ d ∨ p = (k, v) := by
  induction d with
  | nil => simpa [dictUpsert] using h
  | cons q rest ih =>
      by_cases hq : q.1 = k
      · simp only [dictUpsert, hq, if_pos rfl] at h
        rcases List.mem_cons.mp h with h1 | h1
        · exact Or.inr h1
        · exact Or.inl (List.mem_cons_of_mem _ h1)
      · simp only [dictUpsert, hq, if_neg hq] at h
        rcases List.mem_cons.mp h with h1 | h1
        · exact Or.inl (h1 ▸ List.mem_cons_self _ _)
        · rcases ih h1 with h2 | h2
          · exact Or.inl (List.mem_cons_of_mem _ h2)
          · exact Or.inr h2

/-!
## Claim C4: mass similarity formula and monotonicity
-/

/-- Claim C4: the mass-similarity feature equals
`base ** |candidate parent mass - query parent mass|`, the default base
(`base_nr_mass_similarity` in the default settings) is 0.8, and for any
fixed base in (0,1) the feature is strictly decreasing in the absolute
mass difference. -/
theorem mass_similarity_default_base_and_strict_antitone :
    defaultSettings.base_nr_mass_similarity = 4 / 5 ∧
    ∀ base m1 m2 q : ℚ, 0 < base → base < 1 → |m1 - q| < |m2 - q| →
      mass_similarity base m2 q < mass_similarity base m1 q := by
  refine ⟨rfl, fun base m1 m2 q hb hb1 hlt => ?_⟩
  have hb' : (0 : ℝ) < (base : ℝ) := by exact_mod_cast hb
  have hb1' : (base : ℝ) < 1 := by exact_mod_cast hb1
  have hlt' : |(m1 : ℝ) - (q : ℝ)| < |(m2 : ℝ) - (q : ℝ)| := by
    have := hlt
    push_cast [abs_sub_comm] at this ⊢
    calc |(m1 : ℝ) - (q : ℝ)| = ((|m1 - q| : ℚ) : ℝ) := by push_cast; ring_nf
      _ < ((|m2 - q| : ℚ) : ℝ) := by exact_mod_cast hlt
      _ = |(m2 : ℝ) - (q : ℝ)| := by push_cast; ring_nf
  exact Real.rpow_lt_rpow_of_exponent_gt hb' hb1' hlt'

/-- Witness for Claim C4 at base 4/5, query mass 100, candidate masses
105 and 110. -/
theorem mass_similarity_default_base_and_strict_antitone_witness :
    mass_similarity (4 / 5) 110 100 < mass_similarity (4 / 5) 105 100 :=
  mass_similarity_default_base_and_strict_antitone.2 (4 / 5) 105 110 100
    (by norm_num) (by norm_num)
    (by rw [show (105 : ℚ) - 100 = 5 by norm_num, show (110 : ℚ) - 100 = 10 by norm_num,
          abs_of_pos, abs_of_pos] <;> norm_num)

/-!
## Claim C9: eager validation of configuration options
-/

theorem setSettingsLoop_error_of_invalid (l : List (String × PyVal)) (s : Settings)
    (h : ∃ p ∈ l, invalidSetting p) :
    ∃ msg, setSettingsLoop s l = .error (.assertionError msg) := by
  induction l generalizing s with
  | nil => simp at h
  | cons p rest ih =>
      obtain ⟨k, v⟩ := p
      cases ht : settingType k with
      | none =>
          exact ⟨"Invalid argument in constructor:" ++ k, by simp [setSettingsLoop, ht]⟩
      | some t =>
          by_cases htag : v.typeTag = t
          · obtain ⟨q, hq, hqinv⟩ := h
            rcases List.mem_cons.mp hq with rfl | hqrest
            · exact absurd htag (hqinv t ht)
            · obtain ⟨msg, hmsg⟩ := ih (applySetting s k v) ⟨q, hqrest, hqinv⟩
              exact ⟨msg, by simp [setSettingsLoop, ht, htag, hmsg]⟩
          · exact ⟨"Different type is expected for argument: " ++ k, by
              simp [setSettingsLoop, ht, htag]⟩

/-- Claim C9 (amended): supplying an unrecognized option name, or a value
of the wrong runtime type for a recognized option, to the `MS2Library`
constructor makes construction fail — but with Python's `AssertionError`
(from the `assert` statements of `_set_settings`, which runs first in
`__init__`), not with a dedicated `ConfigurationError`. -/
theorem ms2library_init_invalid_option_assertion_error
    (new_settings : List (String × PyVal)) (belonging : List (Inchikey × List SpectrumId))
    (closest : List (Inchikey × List (Inchikey × ℚ))) (parentMasses : List (SpectrumId × ℚ))
    (ms2dsColumn : Spectrum → List (SpectrumId × ℚ)) (s2vScore : Spectrum → SpectrumId → ℚ)
    (h : ∃ p ∈ new_settings, invalidSetting p) :
    ∃ msg, ms2library_init new_settings belonging closest parentMasses ms2dsColumn s2vScore =
      .error (.assertionError msg) := by
  obtain ⟨msg, hmsg⟩ := setSettingsLoop_error_of_invalid new_settings defaultSettings h
  exact ⟨msg, by simp [ms2library_init, set_settings, hmsg, Bind.bind, Except.bind]⟩

/-- Witness for Claim C9: a wrongly typed value for
`cosine_score_tolerance` makes construction fail with `AssertionError`. -/
theorem ms2library_init_invalid_option_assertion_error_witness :
    ∃ msg, ms2library_init [("cosine_score_tolerance", .vStr "x")] [] [] []
      (fun _ => []) (fun _ _ => 0) = .error (.assertionError msg) :=
  ms2library_init_invalid_option_assertion_error _ _ _ _ _ _
    ⟨("cosine_score_tolerance", .vStr "x"), by simp, by
      intro t ht
      simp only [settingType] at ht
      cases ht
      decide⟩

/-- Counterexample to Claim C9 as stated: the source never raises a
`ConfigurationError`; an unrecognized option name raises
`AssertionError`. -/
theorem set_settings_raises_assertion_not_configuration_error :
    set_settings [("unknown_option", .vBool true)] =
      .error (.assertionError "Invalid argument in constructor:unknown_option") ∧
    ¬ ∃ msg, set_settings [("unknown_option", .vBool true)] =
      .error (.configurationError msg) := by
  have h1 : set_settings [("unknown_option", .vBool true)] =
      .error (.assertionError "Invalid argument in constructor:unknown_option") := rfl
  refine ⟨h1, ?_⟩
  rintro ⟨msg, hmsg⟩
  rw [h1] at hmsg
  simp at hmsg

/-!
## Claim C5: size of the preselection; empty library behaviour
-/

theorem calc_preselection_components (scores : List (SpectrumId × ℚ)) (N : ℕ)
    (bel : List (Inchikey × List SpectrumId)) (clo : List (Inchikey × List (Inchikey × ℚ)))
    (sel : List SpectrumId) (avg : List (Inchikey × (ℚ × ℕ)))
    (rel : List (Inchikey × (ℚ × ℕ × ℚ)))
    (h : calculate_averages_and_preselection scores N bel clo = .ok (sel, avg, rel)) :
    sel = (nlargest N scores).map Prod.fst ∧
    get_average_ms2ds_for_inchikey14 scores bel = .ok avg ∧
    get_closely_related_scores (avg.map Prod.fst) clo avg = .ok rel := by
  unfold calculate_averages_and_preselection at h
  cases havg : get_average_ms2ds_for_inchikey14 scores bel with
  | error e => rw [havg] at h; simp [Bind.bind, Except.bind] at h
  | ok avgv =>
      rw [havg] at h
      cases hrel : get_closely_related_scores (avgv.map Prod.fst) clo avgv with
      | error e => simp [Bind.bind, Except.bind, hrel] at h
      | ok relv =>
          simp only [Bind.bind, Except.bind, hrel, Except.ok.injEq, Prod.mk.injEq] at h
          obtain ⟨h1, h2, h3⟩ := h
          subst h1; subst h2; subst h3
          exact ⟨rfl, rfl, hrel⟩

/-- Claim C5 (amended): the preselected list of spectrum identifiers has
length exactly `min N (library size)` — exactly `N` when the library
holds at least `N` spectra, fewer only when it is smaller.  No
`InsufficientLibraryError` exists in the source and the empty library
raises nothing (see the counterexample below). -/
theorem preselection_length (scores : List (SpectrumId × ℚ)) (N : ℕ)
    (bel : List (Inchikey × List SpectrumId)) (clo : List (Inchikey × List (Inchikey × ℚ)))
    (sel : List SpectrumId) (avg : List (Inchikey × (ℚ × ℕ)))
    (rel : List (Inchikey × (ℚ × ℕ × ℚ)))
    (h : calculate_averages_and_preselection scores N bel clo = .ok (sel, avg, rel)) :
    sel.length = min N scores.length := by
  obtain ⟨h1, -, -⟩ := calc_preselection_components scores N bel clo sel avg rel h
  rw [h1, List.length_map, length_nlargest]

/-- Witness for Claim C5: a three-spectrum library with cut-off 2 yields
a preselection of length `min 2 3 = 2`. -/
theorem preselection_length_witness : (["c", "b"] : List SpectrumId).length = min 2 3 :=
  preselection_length [("a", 1), ("b", 2), ("c", 3)] 2 [("I", ["a", "b", "c"])]
    [("I", [("I", 1)])] ["c", "b"] [("I", (2, 3))] [("I", (2, 3, 1))] (by
      simp [calculate_averages_and_preselection, get_average_ms2ds_for_inchikey14,
        sumMemberScores, dictGet, nlargest, get_closely_related_scores, closelyRelatedLoop,
        neighborTotals, dictUpsert, List.insertionSort, List.orderedInsert, byDescKey,
        Bind.bind, Except.bind]
      norm_num)

/-- Counterexample to Claim C5 as stated: on an empty library the
preselection does not raise any error (there is no
`InsufficientLibraryError` anywhere in the source); it returns an empty
selection. -/
theorem preselection_empty_library_raises_nothing :
    calculate_averages_and_preselection [] 5 [] [] = .ok ([], [], []) ∧
    ∀ e, calculate_averages_and_preselection [] 5 [] [] ≠ .error e := by
  have h1 : calculate_averages_and_preselection [] 5 [] [] = .ok ([], [], []) := rfl
  refine ⟨h1, fun e he => ?_⟩
  rw [h1] at he
  cases he

/-!
## Claim C7: tie-breaking in the preselection
-/

theorem mem_take_of_pair_sublist {α : Type} {a b : α} {L : List α} {n : ℕ}
    (hsub : List.Sublist [a, b] L) (hnd : L.Nodup) (hb : b ∈ L.take n) : a ∈ L.take n := by
  induction L generalizing n with
  | nil => simp at hsub
  | cons c L' ih =>
      cases hsub with
      | cons _ h =>
          cases n with
          | zero => simp at hb
          | succ m =>
              rw [List.take_succ_cons] at hb ⊢
              rcases List.mem_cons.mp hb with hbc | hbm
              · have hbL' : b ∈ L' := h.subset (by simp)
                exact absurd (hbc ▸ hbL') (List.nodup_cons.mp hnd).1
              · exact List.mem_cons_of_mem _ (ih h (List.nodup_cons.mp hnd).2 hbm)
      | cons₂ _ h =>
          cases n with
          | zero => simp at hb
          | succ m =>
              rw [List.take_succ_cons]
              exact List.mem_cons_self _ _

/-- Claim C7 (amended): when raw similarity scores tie, the preselection
(`Series.nlargest` with the default `keep='first'`) keeps the entry that
occurs earlier in the library score series — the tie-break is positional
(index order of the embeddings DataFrame), not lexicographic; the
selection is a deterministic function of the indexed score series. -/
theorem nlargest_keep_first (s : List (SpectrumId × ℚ)) (n : ℕ) (a b : SpectrumId × ℚ)
    (hnd : (s.map Prod.fst).Nodup) (hsub : List.Sublist [a, b] s) (heq : a.2 = b.2)
    (hb : b ∈ nlargest n s) : a ∈ nlargest n s := by
  have hab : byDescKey Prod.snd a b := le_of_eq heq.symm
  have hstable : List.Sublist [a, b] (List.insertionSort (byDescKey Prod.snd) s) :=
    List.pair_sublist_insertionSort hab hsub
  have hndp : s.Nodup := hnd.of_map
  have hnds : (List.insertionSort (byDescKey Prod.snd) s).Nodup :=
    ((List.perm_insertionSort _ s).nodup_iff).mpr hndp
  exact mem_take_of_pair_sublist hstable hnds hb

/-- Witness for Claim C7 (amended): with two tied entries, membership of
the later one forces membership of the earlier one. -/
theorem nlargest_keep_first_witness :
    ("B", (1 : ℚ)) ∈ nlargest 2 [("B", 1), ("A", 1)] :=
  nlargest_keep_first [("B", 1), ("A", 1)] 2 ("B", 1) ("A", 1) (by decide)
    (List.Sublist.refl _) rfl
    (by simp [nlargest, List.insertionSort, List.orderedInsert, byDescKey])

/-- Counterexample to Claim C7 as stated: with tied scores the selection
keeps `"B"`, the id at the earlier series position, not the
lexicographically lower `"A"`. -/
theorem nlargest_tie_not_lexicographic :
    (nlargest 1 [("B", 1), ("A", 1)]).map Prod.fst = ["B"] ∧
    (nlargest 1 [("B", 1), ("A", 1)]).map Prod.fst ≠ ["A"] := by
  have h : (nlargest 1 [("B", 1), ("A", 1)]).map Prod.fst = ["B"] := by
    simp [nlargest, List.insertionSort, List.orderedInsert, byDescKey]
  refine ⟨h, ?_⟩
  rw [h]
  simp

/-!
## Claim C2: the own-structure aggregate
-/

theorem sumMemberScores_eq_sum (scores : List (SpectrumId × ℚ)) (members : List SpectrumId)
    (vs : List ℚ) (hvs : List.Forall₂ (fun sid v => dictGet scores sid = .ok v) members vs) :
    sumMemberScores scores members = .ok vs.sum := by
  induction hvs with
  | nil => rfl
  | cons h htail ih => simp [sumMemberScores, h, ih, Bind.bind, Except.bind]

theorem get_average_keys_subset (scores : List (SpectrumId × ℚ))
    (bel : List (Inchikey × List SpectrumId)) (avg : List (Inchikey × (ℚ × ℕ)))
    (h : get_average_ms2ds_for_inchikey14 scores bel = .ok avg) :
    ∀ k ∈ avg.map Prod.fst, k ∈ bel.map Prod.fst := by
  induction bel generalizing avg with
  | nil =>
      simp only [get_average_ms2ds_for_inchikey14, Except.ok.injEq] at h
      subst h
      simp
  | cons p rest ih =>
      obtain ⟨ik', members'⟩ := p
      simp only [get_average_ms2ds_for_inchikey14] at h
      cases hs : sumMemberScores scores members' with
      | error e => rw [hs] at h; simp [Bind.bind, Except.bind] at h
      | ok total =>
          cases hr : get_average_ms2ds_for_inchikey14 scores rest with
          | error e => rw [hs, hr] at h; simp [Bind.bind, Except.bind] at h
          | ok restAvg =>
              rw [hs, hr] at h
              simp only [Bind.bind, Except.bind] at h
              by_cases hlen : 0 < members'.length
              · rw [if_pos hlen] at h
                injection h with h'
                subst h'
                intro k hk
                simp only [List.map_cons, List.mem_cons] at hk ⊢
                rcases hk with hk | hk
                · exact Or.inl hk
                · exact Or.inr (ih restAvg hr k hk)
              · rw [if_neg hlen] at h
                injection h with h'
                subst h'
                intro k hk
                simp only [List.map_cons, List.mem_cons]
                exact Or.inr (ih restAvg hr k hk)

/-- Claim C2 (amended): the own-structure aggregate maps every inchikey14
with `n ≥ 1` member spectra to `(sum of member scores / n, n)` and omits
every inchikey14 with zero members (nothing is stored, no division by
zero occurs).  The omission is, however, not safe downstream: an omitted
inchikey14 appearing in a selected structure's neighbour list makes
`get_closely_related_scores` fail with a `KeyError` (see the
counterexample). -/
theorem get_average_own_structure_aggregate (scores : List (SpectrumId × ℚ))
    (bel : List (Inchikey × List SpectrumId)) (avg : List (Inchikey × (ℚ × ℕ)))
    (ik : Inchikey) (members : List SpectrumId) (vs : List ℚ)
    (hnd : (bel.map Prod.fst).Nodup) (hmem : (ik, members) ∈ bel)
    (h : get_average_ms2ds_for_inchikey14 scores bel = .ok avg)
    (hvs : List.Forall₂ (fun sid v => dictGet scores sid = .ok v) members vs) :
    (members = [] → dictGet avg ik = .error (.keyError ik)) ∧
    (members ≠ [] → dictGet avg ik = .ok (vs.sum / members.length, members.length)) := by
  induction bel generalizing avg with
  | nil => simp at hmem
  | cons p rest ih =>
      obtain ⟨ik', members'⟩ := p
      simp only [get_average_ms2ds_for_inchikey14] at h
      cases hs : sumMemberScores scores members' with
      | error e => rw [hs] at h; simp [Bind.bind, Except.bind] at h
      | ok total =>
          cases hr : get_average_ms2ds_for_inchikey14 scores rest with
          | error e => rw [hs, hr] at h; simp [Bind.bind, Except.bind] at h
          | ok restAvg =>
              rw [hs, hr] at h
              simp only [Bind.bind, Except.bind] at h
              simp only [List.map_cons, List.nodup_cons] at hnd
              rcases List.mem_cons.mp hmem with heq | hmemrest
              · cases heq
                have hnotrest : ik ∉ restAvg.map Prod.fst := fun hc =>
                  hnd.1 (get_average_keys_subset scores rest restAvg hr ik hc)
                by_cases hlen : members = []
                · subst hlen
                  rw [if_neg (by simp)] at h
                  injection h with h'
                  subst h'
                  exact ⟨fun _ => dictGet_of_not_mem _ _ hnotrest, fun hne => absurd rfl hne⟩
                · have hlen' : 0 < members.length := List.length_pos.mpr hlen
                  rw [if_pos hlen'] at h
                  injection h with h'
                  subst h'
                  have htotal : total = vs.sum := by
                    have := sumMemberScores_eq_sum scores members vs hvs
                    rw [hs] at this
                    injection this
                  refine ⟨fun hc => absurd hc hlen, fun _ => ?_⟩
                  simp [dictGet, htotal]
              · have hik : ¬(ik' = ik) := by
                  intro hc
                  subst hc
                  exact hnd.1 (List.mem_map_of_mem Prod.fst hmemrest)
                have step : dictGet avg ik = dictGet restAvg ik := by
                  by_cases hlen : 0 < members'.length
                  · rw [if_pos hlen] at h
                    injection h with h'
                    subst h'
                    simp [dictGet, hik]
                  · rw [if_neg hlen] at h
                    injection h with h'
                    subst h'
                    rfl
                rw [step]
                exact ih restAvg hnd.2 hmemrest hr

/-- Witness for Claim C2: inchikey `B` has zero member spectra and is
omitted from the aggregate built over a one-spectrum library. -/
theorem get_average_own_structure_aggregate_witness :
    (([] : List SpectrumId) = [] →
      dictGet [("A", ((9 : ℚ) / 10, 1))] "B" = .error (.keyError "B")) ∧
    (([] : List SpectrumId) ≠ [] →
      dictGet [("A", ((9 : ℚ) / 10, 1))] "B" =
        .ok (([] : List ℚ).sum / (([] : List SpectrumId).length : ℚ),
             ([] : List SpectrumId).length)) :=
  get_average_own_structure_aggregate [("s1", 9 / 10)] [("A", ["s1"]), ("B", [])]
    [("A", (9 / 10, 1))] "B" [] [] (by decide) (by simp)
    (by simp [get_average_ms2ds_for_inchikey14, sumMemberScores, dictGet,
          Bind.bind, Except.bind])
    List.Forall₂.nil

/-- Counterexample to the final part of Claim C2: the zero-member
inchikey `B` is omitted from the aggregate, and precisely because of that
omission the downstream neighbourhood scoring crashes with a `KeyError`
when `B` occurs in the neighbour list of the selected inchikey `A`. -/
theorem avg_omission_crashes_neighbourhood_scoring :
    get_average_ms2ds_for_inchikey14 [("s1", (9 : ℚ) / 10)] [("A", ["s1"]), ("B", [])] =
      .ok [("A", (9 / 10, 1))] ∧
    calculate_averages_and_preselection [("s1", (9 : ℚ) / 10)] 5 [("A", ["s1"]), ("B", [])]
      [("A", [("B", 1 / 2)])] = .error (.keyError "B") := by
  constructor
  · simp [get_average_ms2ds_for_inchikey14, sumMemberScores, dictGet,
      Bind.bind, Except.bind]
  · simp [calculate_averages_and_preselection, get_average_ms2ds_for_inchikey14,
      sumMemberScores, dictGet, nlargest, get_closely_related_scores, closelyRelatedLoop,
      neighborTotals, dictUpsert, List.insertionSort, List.orderedInsert, byDescKey,
      Bind.bind, Except.bind]

/-!
## Claim C3: the closely-related (chemical neighbourhood) score
-/

theorem neighborTotals_closed_form (avg : List (Inchikey × (ℚ × ℕ)))
    (nbrs : List (Inchikey × ℚ)) (ws : List (ℚ × ℕ))
    (hF : List.Forall₂ (fun p w => dictGet avg p.1 = .ok w) nbrs ws) :
    neighborTotals avg nbrs =
      .ok ((List.zipWith (fun (p : Inchikey × ℚ) (w : ℚ × ℕ) =>
              w.1 * ((w.2 : ℚ) * p.2)) nbrs ws).sum,
           (List.zipWith (fun (p : Inchikey × ℚ) (w : ℚ × ℕ) =>
              (w.2 : ℚ) * p.2) nbrs ws).sum,
           (ws.map Prod.snd).sum) := by
  induction hF with
  | nil => rfl
  | cons h htail ih =>
      simp only [neighborTotals, h, ih, Bind.bind, Except.bind, List.zipWith_cons_cons,
        List.sum_cons, List.map_cons, Except.ok.injEq, Prod.mk.injEq]
      refine ⟨by ring, by ring, by ring⟩

theorem closelyRelatedLoop_lookup_of_not_mem (closest : List (Inchikey × List (Inchikey × ℚ)))
    (avg : List (Inchikey × (ℚ × ℕ))) (sel : List Inchikey)
    (acc res : List (Inchikey × (ℚ × ℕ × ℚ)))
    (h : closelyRelatedLoop closest avg acc sel = .ok res) (k : Inchikey) (hk : k ∉ sel) :
    dictGet res k = dictGet acc k := by
  induction sel generalizing acc with
  | nil =>
      simp only [closelyRelatedLoop, Except.ok.injEq] at h
      subst h
      rfl
  | cons ik rest ih =>
      simp only [closelyRelatedLoop] at h
      simp only [List.mem_cons] at hk
      push_neg at hk
      cases hik : dictGet closest ik with
      | error e => rw [hik] at h; simp [Bind.bind, Except.bind] at h
      | ok nbrs' =>
          rw [hik] at h
          cases ht : neighborTotals avg nbrs' with
          | error e => simp [Bind.bind, Except.bind, ht] at h
          | ok t =>
              simp only [Bind.bind, Except.bind, ht] at h
              by_cases hc : t.2.2 = 0
              · rw [if_pos hc] at h; cases h
              · rw [if_neg hc] at h
                by_cases hw : t.2.1 = 0
                · rw [if_pos hw] at h; cases h
                · rw [if_neg hw] at h
                  rw [ih _ h hk.2]
                  exact dictGet_upsert_ne acc ik k _ hk.1

theorem closelyRelatedLoop_lookup (closest : List (Inchikey × List (Inchikey × ℚ)))
    (avg : List (Inchikey × (ℚ × ℕ))) (sel : List Inchikey)
    (acc res : List (Inchikey × (ℚ × ℕ × ℚ))) (S : Inchikey) (nbrs : List (Inchikey × ℚ))
    (t : ℚ × ℚ × ℕ) (h : closelyRelatedLoop closest avg acc sel = .ok res)
    (hmem : S ∈ sel) (hS : dictGet closest S = .ok nbrs)
    (ht : neighborTotals avg nbrs = .ok t) (hc : t.2.2 ≠ 0) (hw : t.2.1 ≠ 0) :
    dictGet res S = .ok (t.1 / t.2.1, t.2.2, t.2.1 / (t.2.2 : ℚ)) := by
  induction sel generalizing acc with
  | nil => simp at hmem
  | cons ik rest ih =>
      simp only [closelyRelatedLoop] at h
      by_cases hSrest : S ∈ rest
      · cases hik : dictGet closest ik with
        | error e => rw [hik] at h; simp [Bind.bind, Except.bind] at h
        | ok nbrs' =>
            rw [hik] at h
            cases ht' : neighborTotals avg nbrs' with
            | error e => simp [Bind.bind, Except.bind, ht'] at h
            | ok t' =>
                simp only [Bind.bind, Except.bind, ht'] at h
                by_cases hc' : t'.2.2 = 0
                · rw [if_pos hc'] at h; cases h
                · rw [if_neg hc'] at h
                  by_cases hw' : t'.2.1 = 0
                  · rw [if_pos hw'] at h; cases h
                  · rw [if_neg hw'] at h
                    exact ih _ h hSrest
      · have hSik : S = ik := by
          rcases List.mem_cons.mp hmem with h' | h'
          · exact h'
          · exact absurd h' hSrest
        subst hSik
        rw [hS] at h
        simp only [Bind.bind, Except.bind, ht] at h
        rw [if_neg hc, if_neg hw] at h
        rw [closelyRelatedLoop_lookup_of_not_mem closest avg rest _ res h S hSrest]
        exact dictGet_upsert_self acc S _

/-- Claim C3: for a selected structure-id `S` with neighbour list
`{(N_i, tanimoto_i)}` whose members all have aggregates
`(avg(N_i), count(N_i))`, the chemical neighbourhood score stored for `S`
is the triple `(sum_i w_i * avg(N_i) / sum_i w_i, sum_i count(N_i),
(sum_i w_i) / sum_i count(N_i))` with weights
`w_i = count(N_i) * tanimoto_i` (whenever both denominators are
nonzero; a zero denominator raises `ZeroDivisionError` instead). -/
theorem closely_related_scores_formula (selected : List Inchikey)
    (closest : List (Inchikey × List (Inchikey × ℚ))) (avg : List (Inchikey × (ℚ × ℕ)))
    (S : Inchikey) (nbrs : List (Inchikey × ℚ)) (ws : List (ℚ × ℕ))
    (num W : ℚ) (C : ℕ) (res : List (Inchikey × (ℚ × ℕ × ℚ)))
    (hmem : S ∈ selected) (hS : dictGet closest S = .ok nbrs)
    (hF : List.Forall₂ (fun p w => dictGet avg p.1 = .ok w) nbrs ws)
    (hnum : num = (List.zipWith (fun (p : Inchikey × ℚ) (w : ℚ × ℕ) =>
      w.1 * ((w.2 : ℚ) * p.2)) nbrs ws).sum)
    (hW : W = (List.zipWith (fun (p : Inchikey × ℚ) (w : ℚ × ℕ) =>
      (w.2 : ℚ) * p.2) nbrs ws).sum)
    (hC : C = (ws.map Prod.snd).sum) (hWne : W ≠ 0) (hCne : C ≠ 0)
    (h : get_closely_related_scores selected closest avg = .ok res) :
    dictGet res S = .ok (num / W, C, W / (C : ℚ)) := by
  have ht := neighborTotals_closed_form avg nbrs ws hF
  rw [← hnum, ← hW, ← hC] at ht
  exact closelyRelatedLoop_lookup closest avg selected [] res S nbrs (num, W, C) h hmem hS
    ht hCne hWne

/-- Witness for Claim C3: structure `S` with neighbours `A` (tanimoto
1/2, aggregate (4/5, 3)) and `B` (tanimoto 1, aggregate (1/2, 2)):
weights 3/2 and 2, numerator 11/5, weight sum 7/2, count sum 5. -/
theorem closely_related_scores_formula_witness :
    dictGet [("S", ((22 : ℚ) / 35, (5 : ℕ), (7 : ℚ) / 10))] "S" =
      .ok ((11 : ℚ) / 5 / ((7 : ℚ) / 2), (5 : ℕ), ((7 : ℚ) / 2) / ((5 : ℕ) : ℚ)) :=
  closely_related_scores_formula ["S"] [("S", [("A", 1 / 2), ("B", 1)])]
    [("A", (4 / 5, 3)), ("B", (1 / 2, 2))] "S" [("A", 1 / 2), ("B", 1)]
    [(4 / 5, 3), (1 / 2, 2)] (11 / 5) (7 / 2) 5 [("S", (22 / 35, 5, 7 / 10))]
    (by simp) (by simp [dictGet])
    (List.Forall₂.cons (by simp [dictGet])
      (List.Forall₂.cons (by simp [dictGet]) List.Forall₂.nil))
    (by simp; norm_num) (by simp; norm_num) (by simp) (by norm_num) (by norm_num)
    (by simp [get_closely_related_scores, closelyRelatedLoop, neighborTotals, dictGet,
          dictUpsert, Bind.bind, Except.bind]
        norm_num)

/-!
## Claim C8: shape of the feature table
-/

theorem exceptBind_ok {ε α β : Type} {e : Except ε α} {f : α → Except ε β} {b : β}
    (h : Except.bind e f = .ok b) : ∃ a, e = .ok a ∧ f a = .ok b := by
  cases e with
  | error err => simp [Except.bind] at h
  | ok a => exact ⟨a, rfl, h⟩

theorem san_index (base : ℚ) (ms2ds : List (SpectrumId × ℚ))
    (ikOf : List (SpectrumId × Inchikey)) (related : List (Inchikey × (ℚ × ℕ × ℚ)))
    (avg : List (Inchikey × (ℚ × ℕ))) (pm : List (SpectrumId × ℚ)) (qm : ℚ)
    (selected : List SpectrumId) (s2v : List ℚ) (rows : List (SpectrumId × FeatureRow))
    (h : select_and_normalize_scores_for_selected_spectra base ms2ds ikOf related avg pm qm
      selected s2v = .ok rows) :
    rows.map Prod.fst = selected := by
  induction selected generalizing s2v rows with
  | nil =>
      cases s2v with
      | nil =>
          simp only [select_and_normalize_scores_for_selected_spectra,
            Except.ok.injEq] at h
          subst h
          rfl
      | cons v rest => simp [select_and_normalize_scores_for_selected_spectra] at h
  | cons sid restIds ih =>
      cases s2v with
      | nil => simp [select_and_normalize_scores_for_selected_spectra] at h
      | cons v restS2v =>
          simp only [select_and_normalize_scores_for_selected_spectra, Bind.bind] at h
          obtain ⟨a1, h1, h⟩ := exceptBind_ok h
          obtain ⟨a2, h2, h⟩ := exceptBind_ok h
          obtain ⟨a3, h3, h⟩ := exceptBind_ok h
          obtain ⟨a4, h4, h⟩ := exceptBind_ok h
          obtain ⟨a5, h5, h⟩ := exceptBind_ok h
          obtain ⟨rest, hrest, h⟩ := exceptBind_ok h
          injection h with h'
          subst h'
          simp [ih restS2v rest hrest]

/-- Claim C8 (amended): every feature table has exactly the nine
documented feature columns in the fixed dictionary-literal order, and its
rows are indexed by the preselected candidate spectrum ids in exactly the
preselection order.  There is, however, no sentinel filling: a candidate
with a missing feature raises `KeyError` instead (see the
counterexample). -/
theorem feature_table_shape (base : ℚ) (ms2ds : List (SpectrumId × ℚ))
    (ikOf : List (SpectrumId × Inchikey)) (related : List (Inchikey × (ℚ × ℕ × ℚ)))
    (avg : List (Inchikey × (ℚ × ℕ))) (pm : List (SpectrumId × ℚ)) (qm : ℚ)
    (selected : List SpectrumId) (s2v : List ℚ) (rows : List (SpectrumId × FeatureRow))
    (h : select_and_normalize_scores_for_selected_spectra base ms2ds ikOf related avg pm qm
      selected s2v = .ok rows) :
    rows.map Prod.fst = selected ∧
    ∀ p ∈ rows, (featureRowFields p.2).map Prod.fst =
      ["parent_mass_divided_by_1000", "mass_similarity", "s2v_score", "ms2ds_score",
       "average_ms2ds_score_for_inchikey14",
       "nr_of_spectra_with_same_inchikey14_divided_by_100",
       "average_ms2ds_score_for_closely_related_inchikey14s",
       "average_tanimoto_score_used_for_closely_related_score",
       "nr_of_spectra_for_closely_related_score_divided_by_100"] ∧
      (featureRowFields p.2).length = 9 :=
  ⟨san_index base ms2ds ikOf related avg pm qm selected s2v rows h,
   fun _ _ => ⟨rfl, rfl⟩⟩

/-- Witness for Claim C8: a fully populated one-candidate table has index
`["s1"]` and the nine fixed columns. -/
theorem feature_table_shape_witness :
    demoFeatureTable.map Prod.fst = ["s1"] ∧
    ∀ p ∈ demoFeatureTable, (featureRowFields p.2).map Prod.fst =
      ["parent_mass_divided_by_1000", "mass_similarity", "s2v_score", "ms2ds_score",
       "average_ms2ds_score_for_inchikey14",
       "nr_of_spectra_with_same_inchikey14_divided_by_100",
       "average_ms2ds_score_for_closely_related_inchikey14s",
       "average_tanimoto_score_used_for_closely_related_score",
       "nr_of_spectra_for_closely_related_score_divided_by_100"] ∧
      (featureRowFields p.2).length = 9 :=
  feature_table_shape (4 / 5) [("s1", 9 / 10)] [("s1", "A")] [("A", (1, 1, 1))]
    [("A", (9 / 10, 1))] [("s1", 100)] 100 ["s1"] [1 / 2] demoFeatureTable (by rfl)

/-- Counterexample to the sentinel part of Claim C8: a candidate whose
inchikey is missing from the lookup dictionary is not kept with a
sentinel value — the whole table construction raises `KeyError`. -/
theorem feature_table_missing_key_raises :
    select_and_normalize_scores_for_selected_spectra (4 / 5) [("s1", (9 : ℚ) / 10)] [] []
      [] [("s1", 100)] 100 ["s1"] [1 / 2] = .error (.keyError "s1") ∧
    ¬ ∃ rows, select_and_normalize_scores_for_selected_spectra (4 / 5) [("s1", (9 : ℚ) / 10)]
      [] [] [] [("s1", 100)] 100 ["s1"] [1 / 2] = .ok rows := by
  have h1 : select_and_normalize_scores_for_selected_spectra (4 / 5) [("s1", (9 : ℚ) / 10)]
      [] [] [] [("s1", 100)] 100 ["s1"] [1 / 2] = .error (.keyError "s1") := by
    simp [select_and_normalize_scores_for_selected_spectra, dictGet, Bind.bind, Except.bind]
  refine ⟨h1, ?_⟩
  rintro ⟨rows, hr⟩
  rw [h1] at hr
  cases hr

/-!
## Claims C10 and C1: the per-query loop and the final tables
-/

theorem processQuery_table_length (lib : MS2Library)
    (matrix : List (SpectrumId × List (SpectrumId × ℚ)))
    (ikOf : List (SpectrumId × Inchikey)) (N : ℕ) (q : Spectrum)
    (t : List (SpectrumId × FeatureRow))
    (h : processQuerySpectrum lib matrix ikOf N q = .ok t) : t.length ≤ N := by
  simp only [processQuerySpectrum, Bind.bind] at h
  obtain ⟨col, hcol, h⟩ := exceptBind_ok h
  obtain ⟨r, hr, h⟩ := exceptBind_ok h
  obtain ⟨sel, avg, rel⟩ := r
  have hidx := san_index _ _ _ _ _ _ _ _ _ _ h
  have hsel := (calc_preselection_components col N lib.belonging lib.closest sel avg rel hr).1
  have hlen : t.length = sel.length := by
    have := congrArg List.length hidx
    simpa using this
  rw [hlen, hsel, List.length_map, length_nlargest]
  exact min_le_left _ _

theorem collectLoop_keys (lib : MS2Library)
    (matrix : List (SpectrumId × List (SpectrumId × ℚ)))
    (ikOf : List (SpectrumId × Inchikey)) (N : ℕ) (qs : List Spectrum)
    (acc res : List (SpectrumId × List (SpectrumId × FeatureRow)))
    (hnd : (acc.map Prod.fst ++ qs.map Spectrum.spectrum_id).Nodup)
    (h : collectLoop lib matrix ikOf N acc qs = .ok res) :
    res.map Prod.fst = acc.map Prod.fst ++ qs.map Spectrum.spectrum_id := by
  induction qs generalizing acc with
  | nil =>
      simp only [collectLoop, Except.ok.injEq] at h
      subst h
      simp
  | cons q rest ih =>
      simp only [collectLoop, Bind.bind] at h
      obtain ⟨t, ht, h⟩ := exceptBind_ok h
      have hdisj := List.disjoint_of_nodup_append hnd
      have hqnotacc : q.spectrum_id ∉ acc.map Prod.fst := by
        intro hc
        exact hdisj hc (by simp)
      have hkeys := dictUpsert_keys_of_not_mem acc q.spectrum_id t hqnotacc
      have hnd' : ((dictUpsert acc q.spectrum_id t).map Prod.fst ++
          rest.map Spectrum.spectrum_id).Nodup := by
        rw [hkeys]
        simpa using hnd
      have hres := ih (dictUpsert acc q.spectrum_id t) hnd' h
      rw [hres, hkeys]
      simp

theorem collectLoop_tables_le (lib : MS2Library)
    (matrix : List (SpectrumId × List (SpectrumId × ℚ)))
    (ikOf : List (SpectrumId × Inchikey)) (N : ℕ) (qs : List Spectrum)
    (acc res : List (SpectrumId × List (SpectrumId × FeatureRow)))
    (hacc : ∀ p ∈ acc, p.2.length ≤ N)
    (h : collectLoop lib matrix ikOf N acc qs = .ok res) :
    ∀ p ∈ res, p.2.length ≤ N := by
  induction qs generalizing acc with
  | nil =>
      simp only [collectLoop, Except.ok.injEq] at h
      subst h
      exact hacc
  | cons q rest ih =>
      simp only [collectLoop, Bind.bind] at h
      obtain ⟨t, ht, h⟩ := exceptBind_ok h
      refine ih (dictUpsert acc q.spectrum_id t) (fun p hp => ?_) h
      rcases mem_dictUpsert acc q.spectrum_id t p hp with hp' | hp'
      · exact hacc p hp'
      · subst hp'
        exact processQuery_table_length lib matrix ikOf N q t ht

/-- Claim C10 (amended): for query lists with pairwise-distinct spectrum
ids, `collect_matches_data_multiple_spectra` returns one table per query
spectrum, keyed by the spectrum ids in input order — the number of tables
equals the number of distinct ids.  With two query spectra sharing one
id, the call does not return a single later-spectrum entry: it raises
(see the counterexample; the duplicated column label makes
`ms2ds_scores[spectrum_id]` a two-column DataFrame and the following
`Series.nlargest` call fails with `TypeError`). -/
theorem collect_matches_one_table_per_distinct_id (lib : MS2Library) (qs : List Spectrum)
    (N : ℕ) (res : List (SpectrumId × List (SpectrumId × FeatureRow)))
    (hnd : (qs.map Spectrum.spectrum_id).Nodup)
    (h : collect_matches_data_multiple_spectra lib qs N = .ok res) :
    res.map Prod.fst = qs.map Spectrum.spectrum_id ∧ res.length = qs.length := by
  simp only [collect_matches_data_multiple_spectra] at h
  have hk := collectLoop_keys lib _ _ N qs [] res (by simpa using hnd) h
  simp only [List.map_nil, List.nil_append] at hk
  refine ⟨hk, ?_⟩
  have := congrArg List.length hk
  simpa using this

/-- Witness for Claim C10: one query spectrum with id `Q1` yields exactly
the table dictionary key `Q1`. -/
theorem collect_matches_one_table_per_distinct_id_witness :
    demoCollected.map Prod.fst = ["Q1"] ∧ demoCollected.length = 1 :=
  collect_matches_one_table_per_distinct_id demoLib [demoQuery] 2 demoCollected
    (by decide)
    (by simp [collect_matches_data_multiple_spectra, collectLoop, processQuerySpectrum,
          df_select_column, calculate_averages_and_preselection,
          get_average_ms2ds_for_inchikey14, sumMemberScores, nlargest,
          get_closely_related_scores, closelyRelatedLoop, neighborTotals,
          select_and_normalize_scores_for_selected_spectra, invert_belonging, dictGet,
          dictUpsert, demoLib, demoQuery, demoCollected, demoRow, defaultSettings,
          mass_similarity, List.insertionSort, List.orderedInsert, byDescKey,
          Bind.bind, Except.bind]
        norm_num)

/-- Counterexample to Claim C10 as stated: two query spectra sharing the
id `Q` do not produce a single dictionary entry with the later spectrum's
results — the call raises `TypeError` (pandas returns a two-column frame
for the duplicated column label `Q`, and `DataFrame.nlargest` requires a
`columns` argument). -/
theorem collect_matches_duplicate_id_raises :
    collect_matches_data_multiple_spectra demoLib [⟨"Q", 100⟩, ⟨"Q", 200⟩] 2 =
      .error (.typeError "nlargest() missing 1 required positional argument: columns") ∧
    ∀ res, collect_matches_data_multiple_spectra demoLib [⟨"Q", 100⟩, ⟨"Q", 200⟩] 2 ≠
      .ok res := by
  have h1 : collect_matches_data_multiple_spectra demoLib [⟨"Q", 100⟩, ⟨"Q", 200⟩] 2 =
      .error (.typeError "nlargest() missing 1 required positional argument: columns") := rfl
  refine ⟨h1, fun res hres => ?_⟩
  rw [h1] at hres
  cases hres

/-- Claim C1 (amended): for query lists with pairwise-distinct spectrum
ids, `select_best_matches` returns exactly one results table per query
spectrum, each with at most `preselection_cut_off` rows and sorted by the
appended model prediction in non-increasing order.  (With duplicate ids
the call raises instead of returning one table per spectrum; see the
counterexample.) -/
theorem select_best_matches_tables (lib : MS2Library) (predict : FeatureRow → ℚ)
    (qs : List Spectrum) (N : ℕ)
    (res : List (SpectrumId × List ((SpectrumId × FeatureRow) × ℚ)))
    (hnd : (qs.map Spectrum.spectrum_id).Nodup)
    (h : select_best_matches lib predict qs N = .ok res) :
    res.length = qs.length ∧
    ∀ p ∈ res, p.2.length ≤ N ∧ p.2.Pairwise (fun a b => b.2 ≤ a.2) := by
  simp only [select_best_matches] at h
  cases hc : collect_matches_data_multiple_spectra lib qs N with
  | error e => rw [hc] at h; simp [Except.map] at h
  | ok d =>
      rw [hc] at h
      simp only [Except.map] at h
      injection h with h'
      subst h'
      have hcl : collectLoop lib (qs.map fun q => (q.spectrum_id, lib.ms2dsColumn q))
          (invert_belonging lib.belonging) N [] qs = .ok d := hc
      constructor
      · have hk := collectLoop_keys lib _ _ N qs [] d (by simpa using hnd) hcl
        simp only [List.map_nil, List.nil_append] at hk
        have := congrArg List.length hk
        simpa [get_ms2query_model_prediction] using this
      · intro p hp
        simp only [get_ms2query_model_prediction, List.mem_map] at hp
        obtain ⟨t, htmem, rfl⟩ := hp
        constructor
        · simp only [List.length_insertionSort, List.length_map]
          exact collectLoop_tables_le lib _ _ N qs [] d (by simp) hcl t htmem
        · exact List.sorted_insertionSort (byDescKey Prod.snd) _

/-- Witness for Claim C1: the demonstration query yields one table with
at most 2 rows, sorted non-increasingly by the prediction. -/
theorem select_best_matches_tables_witness :
    demoBestMatches.length = 1 ∧
    ∀ p ∈ demoBestMatches, p.2.length ≤ 2 ∧ p.2.Pairwise (fun a b => b.2 ≤ a.2) :=
  select_best_matches_tables demoLib demoPredict [demoQuery] 2 demoBestMatches
    (by decide)
    (by simp [select_best_matches, collect_matches_data_multiple_spectra, collectLoop,
          processQuerySpectrum, df_select_column, calculate_averages_and_preselection,
          get_average_ms2ds_for_inchikey14, sumMemberScores, nlargest,
          get_closely_related_scores, closelyRelatedLoop, neighborTotals,
          select_and_normalize_scores_for_selected_spectra, invert_belonging, dictGet,
          dictUpsert, demoLib, demoQuery, demoPredict, demoBestMatches, demoRow,
          defaultSettings, mass_similarity, get_ms2query_model_prediction,
          List.insertionSort, List.orderedInsert, byDescKey, Bind.bind, Except.bind,
          Except.map]
        norm_num)

/-- Counterexample to Claim C1 as stated: a list of two valid query
spectra sharing the spectrum id `Q` does not yield one table per query
spectrum — the call raises `TypeError` instead of returning two
tables. -/
theorem select_best_matches_duplicate_id_raises :
    select_best_matches demoLib demoPredict [⟨"Q", 100⟩, ⟨"Q", 200⟩] 2 =
      .error (.typeError "nlargest() missing 1 required positional argument: columns") ∧
    ¬ ∃ res, select_best_matches demoLib demoPredict [⟨"Q", 100⟩, ⟨"Q", 200⟩] 2 = .ok res ∧
      res.length = 2 := by
  have h1 : select_best_matches demoLib demoPredict [⟨"Q", 100⟩, ⟨"Q", 200⟩] 2 =
      .error (.typeError "nlargest() missing 1 required positional argument: columns") := rfl
  refine ⟨h1, ?_⟩
  rintro ⟨res, hres, -⟩
  rw [h1] at hres
  cases hres

end MS2Query
